import Mathlib

/-!
# Shallow embedding of the radio transceiver driver

This file embeds `src/vendor/radio_driver.c` (together with the type and
constant declarations of `src/vendor/radio_driver.h`) in Lean 4 and proves
properties of the embedded driver.

Conventions of the embedding:
* C machine integers become `Nat` (or `Int` for the signed `int8_t` RSSI
  values), with an explicit reduction modulo `2^32` (`u32mod`) or `2^16`
  (`u16mod`) at the arithmetic steps where the C unsigned types can wrap.
* The driver's calls to `rand()` and `clock()` are modelled as explicit
  oracle arguments: each API function that reads them takes the drawn
  values as extra parameters, so the embedded functions are pure.
* C pointers passed as inputs are modelled as plain values (a `NULL`
  argument would take the `RADIO_ERROR_INVALID_PARAM` early return, which
  has no counterpart for Lean values and is therefore not modelled);
  output pointers become extra components of the result.
* The registered callbacks are opaque to the driver (it only stores and
  invokes them); they are modelled as `Option Nat` handles, `none`
  standing for `NULL`.  The callback invocation on packet arrival does not
  modify the driver state and is therefore a no-op in the embedding.
* The single global `g_radio` of the C file becomes an explicit
  `radio_state_t` value threaded through every function.
-/

/-- Reduction modulo 2^32, the wrap-around of the C `uint32_t` type. -/
def u32mod (n : Nat) : Nat := n % 4294967296

/-- Reduction modulo 2^16, the wrap-around of the C `uint16_t` type. -/
def u16mod (n : Nat) : Nat := n % 65536

/-- `radio_power_state_t` from radio_driver.h. -/
inductive radio_power_state_t where
  | off
  | sleep
  | standby
  | idle
  | rx
  | tx
deriving DecidableEq, Repr

/-- `radio_tx_power_t` from radio_driver.h. -/
inductive radio_tx_power_t where
  | min
  | low
  | medium
  | high
  | max
deriving DecidableEq, Repr

/-- `radio_data_rate_t` from radio_driver.h. -/
inductive radio_data_rate_t where
  | rate1K
  | rate10K
  | rate50K
  | rate100K
  | rate250K
deriving DecidableEq, Repr

/-- `radio_modulation_t` from radio_driver.h. -/
inductive radio_modulation_t where
  | fsk
  | gfsk
  | lora
  | ook
deriving DecidableEq, Repr

/-- `radio_error_t` from radio_driver.h.  Note that the enumeration has no
`NotFound` code: the sixteen error codes below are all it defines. -/
inductive radio_error_t where
  | ok
  | errInit
  | errConfig
  | errTimeout
  | errNoAck
  | errCrc
  | errInvalidParam
  | errBufferFull
  | errBufferEmpty
  | errChannelBusy
  | errPowerFailure
  | errHardware
  | errNotConnected
  | errEncryption
  | errPacketTooLarge
  | errNetworkFull
  | errRateLimited
deriving DecidableEq, Repr

/-- `radio_packet_priority_t` from radio_driver.h. -/
inductive radio_packet_priority_t where
  | low
  | normal
  | high
  | critical
deriving DecidableEq, Repr

/-- `radio_security_mode_t` from radio_driver.h. -/
inductive radio_security_mode_t where
  | none
  | wep
  | wpa
  | aes128
  | aes256
deriving DecidableEq, Repr

/-- `radio_config_t` from radio_driver.h.  The `network_key[16]` and
`device_address[8]` byte arrays are modelled as lists of bytes. -/
structure radio_config_t where
  frequency_hz : Nat
  channel : Nat
  tx_power : radio_tx_power_t
  data_rate : radio_data_rate_t
  modulation : radio_modulation_t
  security : radio_security_mode_t
  network_key : List Nat
  device_address : List Nat
  network_id : Nat
  auto_ack : Bool
  auto_retry : Bool
  max_retries : Nat
  tx_timeout_ms : Nat
deriving DecidableEq, Repr

/-- `radio_packet_t` from radio_driver.h. -/
structure radio_packet_t where
  destination : List Nat
  source : List Nat
  packet_id : Nat
  priority : radio_packet_priority_t
  payload_size : Nat
  payload : List Nat
  timestamp : Nat
  require_ack : Bool
  retry_count : Nat
deriving DecidableEq, Repr

/-- `radio_stats_t` from radio_driver.h.  All counters are `uint32_t` in C;
`last_rssi` is a signed `int8_t`. -/
structure radio_stats_t where
  packets_sent : Nat
  packets_received : Nat
  packets_lost : Nat
  retries_attempted : Nat
  crc_errors : Nat
  timeouts : Nat
  last_rssi : Int
  channel_utilization : Nat
  total_airtime_ms : Nat
  power_consumption_mw : Nat
deriving DecidableEq, Repr

/-- `radio_network_info_t` from radio_driver.h. -/
structure radio_network_info_t where
  network_id : Nat
  connected_devices : Nat
  signal_strength : Int
  link_quality : Nat
  uptime_seconds : Nat
  is_gateway : Bool
  hop_count : Nat
deriving DecidableEq, Repr

/-- The internal `radio_state_t` structure of radio_driver.c (the type of
the global `g_radio`).  The `rx_buffer[32]` array is modelled as a total
function from index to packet; only indices `0..31` are ever used. -/
structure radio_state_t where
  initialized : Bool
  config : radio_config_t
  power_state : radio_power_state_t
  stats : radio_stats_t
  network_info : radio_network_info_t
  connected_to_network : Bool
  rx_callback : Option Nat
  rx_user_data : Option Nat
  event_callback : Option Nat
  event_user_data : Option Nat
  next_tx_id : Nat
  last_activity_time : Nat
  rx_buffer_count : Nat
  rx_buffer : Nat → radio_packet_t
  rx_buffer_head : Nat
  rx_buffer_tail : Nat

/-- The all-zero `radio_stats_t` (`memset(&stats, 0, ...)`). -/
def zeroStats : radio_stats_t :=
  { packets_sent := 0
    packets_received := 0
    packets_lost := 0
    retries_attempted := 0
    crc_errors := 0
    timeouts := 0
    last_rssi := 0
    channel_utilization := 0
    total_airtime_ms := 0
    power_consumption_mw := 0 }

/-- The all-zero `radio_packet_t`. -/
def zeroPacket : radio_packet_t :=
  { destination := List.replicate 8 0
    source := List.replicate 8 0
    packet_id := 0
    priority := .low
    payload_size := 0
    payload := []
    timestamp := 0
    require_ack := false
    retry_count := 0 }

/-- The all-zero `radio_network_info_t`. -/
def zeroNetworkInfo : radio_network_info_t :=
  { network_id := 0
    connected_devices := 0
    signal_strength := 0
    link_quality := 0
    uptime_seconds := 0
    is_gateway := false
    hop_count := 0 }

/-- The cleared radio state: `static radio_state_t g_radio = {0}` /
`memset(&g_radio, 0, sizeof(g_radio))`. -/
def clearedState : radio_state_t :=
  { initialized := false
    config :=
      { frequency_hz := 0
        channel := 0
        tx_power := .min
        data_rate := .rate1K
        modulation := .fsk
        security := .none
        network_key := List.replicate 16 0
        device_address := List.replicate 8 0
        network_id := 0
        auto_ack := false
        auto_retry := false
        max_retries := 0
        tx_timeout_ms := 0 }
    power_state := .off
    stats := zeroStats
    network_info := zeroNetworkInfo
    connected_to_network := false
    rx_callback := none
    rx_user_data := none
    event_callback := none
    event_user_data := none
    next_tx_id := 0
    last_activity_time := 0
    rx_buffer_count := 0
    rx_buffer := fun _ => zeroPacket
    rx_buffer_head := 0
    rx_buffer_tail := 0 }

/-- Clamp an RSSI value to `[RADIO_RSSI_MIN, RADIO_RSSI_MAX] = [-120, -30]`,
as done at the end of `simulate_rssi`. -/
def clamp_rssi (r : Int) : Int :=
  if r < -120 then -120 else if r > -30 then -30 else r

/-- `simulate_rssi` from radio_driver.c.  `v` is the oracle value drawn by
`rand()`; the C computes `-70 + (rand() % 20 - 10)` and clamps. -/
def simulate_rssi (v : Nat) : Int :=
  clamp_rssi (-70 + ((v : Int) % 20 - 10))

/-- `simulate_channel_utilization` from radio_driver.c: `(rand() % 30) + 10`. -/
def simulate_channel_utilization (v : Nat) : Nat :=
  v % 30 + 10

/-- `validate_config` from radio_driver.c.  The `NULL` check of the C code
is not modelled (configs are values here);
`RADIO_MAX_CHANNELS = 125`, `RADIO_MAX_RETRIES = 5`. -/
def validate_config (config : radio_config_t) : Bool :=
  if config.channel ≥ 125 then false
  else if config.max_retries > 5 then false
  else if config.tx_timeout_ms = 0 then false
  else true

/-- `radio_calculate_airtime` from radio_driver.c.  All intermediate values
are `uint32_t`; products are reduced by `u32mod` where the C type would
wrap.  The `default:` branch of the data-rate switch is unreachable for a
well-typed enum value and is not modelled. -/
def radio_calculate_airtime (payload_size : Nat) (data_rate : radio_data_rate_t)
    (modulation : radio_modulation_t) : Nat :=
  let bps : Nat :=
    match data_rate with
    | .rate1K => 1000
    | .rate10K => 10000
    | .rate50K => 50000
    | .rate100K => 100000
    | .rate250K => 250000
  -- 16 bytes overhead for headers, preamble, etc.
  let total_bits := u32mod ((payload_size + 16) * 8)
  -- modulation efficiency factor
  let adjusted_bits :=
    match modulation with
    | .fsk => total_bits
    | .gfsk => u32mod (total_bits * 9) / 10
    | .lora => u32mod (total_bits * 3) / 2
    | .ook => u32mod (total_bits * 2)
  u32mod (adjusted_bits * 1000000) / bps

/-- `radio_estimate_power_consumption` from radio_driver.c.  The `default:`
branch of the switch is unreachable for a well-typed enum value. -/
def radio_estimate_power_consumption (power_state : radio_power_state_t)
    (duration_ms : Nat) : Nat :=
  let current_ma : Nat :=
    match power_state with
    | .off => 0
    | .sleep => 1
    | .standby => 5
    | .idle => 10
    | .rx => 20
    | .tx => 50
  u32mod (u32mod (current_ma * 1000) * duration_ms) / 3600000

example : radio_calculate_airtime 32 .rate50K .gfsk = 6900 := by decide
example : radio_calculate_airtime 32 .rate50K .fsk = 7680 := by decide

/-! ## Arrival injection (`simulate_packet_reception`) -/

/-- The `rand()` draws consumed by one call of `simulate_packet_reception`:
whether the 5%-chance draw `(rand() % 100) < 5` fired, and the random
material used to build the generated packet. -/
structure rx_sim_oracle where
  fire : Bool
  src : List Nat
  pid : Nat
  psize : Nat
  pdata : List Nat
deriving DecidableEq, Repr

/-- The simulated packet built inside `simulate_packet_reception`
(destination := own device address, priority NORMAL, payload size
`rand() % 100 + 1`, no ack, zero retries). -/
def sim_packet (cfg : radio_config_t) (o : rx_sim_oracle) (now : Nat) : radio_packet_t :=
  { destination := cfg.device_address
    source := o.src
    packet_id := o.pid % 65536
    priority := .normal
    payload_size := o.psize % 100 + 1
    payload := o.pdata
    timestamp := now
    require_ack := false
    retry_count := 0 }

/-- `simulate_packet_reception` from radio_driver.c.  Enqueues a randomly
generated packet at `rx_buffer_head` when the power state is Rx or Idle,
the 5%-chance draw fired and the buffer holds fewer than 32 packets.  The
registered rx callback would be invoked here; it does not change the
driver state. -/
def simulate_packet_reception (o : rx_sim_oracle) (now : Nat)
    (s : radio_state_t) : radio_state_t :=
  if s.power_state ≠ .rx ∧ s.power_state ≠ .idle then s
  else if o.fire then
    if s.rx_buffer_count < 32 then
      { s with
        rx_buffer := fun i =>
          if i = s.rx_buffer_head then sim_packet s.config o now else s.rx_buffer i
        rx_buffer_head := (s.rx_buffer_head + 1) % 32
        rx_buffer_count := s.rx_buffer_count + 1
        stats := { s.stats with
          packets_received := u32mod (s.stats.packets_received + 1) } }
    else s
  else s

/-! ## API implementation -/

/-- `radio_init` from radio_driver.c.  `now` is the oracle for
`get_current_time_ms()`; `r1`, `r2` are the `rand()` draws of the two
`simulate_rssi()` calls.  On an invalid config the state is untouched;
on success the whole state is cleared and re-populated. -/
def radio_init (config : radio_config_t) (now r1 r2 : Nat)
    (s : radio_state_t) : radio_error_t × radio_state_t :=
  if ¬ validate_config config then (.errConfig, s)
  else
    (.ok,
      { clearedState with
        config := config
        initialized := true
        power_state := .idle
        connected_to_network := false
        next_tx_id := 1
        last_activity_time := now
        network_info :=
          { network_id := config.network_id
            connected_devices := 0
            signal_strength := simulate_rssi r1
            link_quality := 0
            uptime_seconds := 0
            is_gateway := false
            hop_count := 255 }
        stats := { zeroStats with last_rssi := simulate_rssi r2 } })

/-- `radio_configure` from radio_driver.c. -/
def radio_configure (config : radio_config_t)
    (s : radio_state_t) : radio_error_t × radio_state_t :=
  if ¬ s.initialized then (.errInit, s)
  else if ¬ validate_config config then (.errConfig, s)
  else if s.power_state ≠ .idle then (.errConfig, s)
  else (.ok, { s with config := config })

/-- `radio_set_power_state` from radio_driver.c.  The range check
`power_state < RADIO_POWER_OFF || power_state > RADIO_POWER_TX` can never
fire for a well-typed enum value and is not modelled.  `now` is the
oracle for `get_current_time_ms()`. -/
def radio_set_power_state (power_state : radio_power_state_t) (now : Nat)
    (s : radio_state_t) : radio_error_t × radio_state_t :=
  if ¬ s.initialized then (.errInit, s)
  else
    match power_state with
    | .off =>
        (.ok, { s with
          connected_to_network := false
          power_state := .off
          last_activity_time := now })
    | .rx =>
        if s.power_state = .off then (.errConfig, s)
        else (.ok, { s with power_state := .rx, last_activity_time := now })
    | .tx =>
        if s.power_state = .off then (.errConfig, s)
        else (.ok, { s with power_state := .tx, last_activity_time := now })
    | p =>
        (.ok, { s with power_state := p, last_activity_time := now })

/-- `radio_get_power_state` from radio_driver.c (pure read). -/
def radio_get_power_state (s : radio_state_t) :
    radio_error_t × Option radio_power_state_t :=
  if ¬ s.initialized then (.errInit, none)
  else (.ok, some s.power_state)

/-- `radio_send_packet` from radio_driver.c.  `lossDraw` is the `rand()`
draw of the 5%-failure simulation, `now` the `get_current_time_ms()`
oracle.  The transient `power_state = TX` assignment is always overwritten
by IDLE on both exit paths; only the final state is modelled. -/
def radio_send_packet (packet : radio_packet_t) (lossDraw now : Nat)
    (s : radio_state_t) : radio_error_t × radio_state_t :=
  if ¬ s.initialized then (.errInit, s)
  else if packet.payload_size > 246 then (.errPacketTooLarge, s)
  else if s.power_state = .off then (.errPowerFailure, s)
  else
    let airtime := radio_calculate_airtime packet.payload_size
      s.config.data_rate s.config.modulation
    let stats1 := { s.stats with
      packets_sent := u32mod (s.stats.packets_sent + 1)
      total_airtime_ms := u32mod (s.stats.total_airtime_ms + airtime / 1000) }
    if lossDraw % 100 < 5 then
      (.errNoAck, { s with
        power_state := .idle
        last_activity_time := now
        stats := { stats1 with packets_lost := u32mod (stats1.packets_lost + 1) } })
    else
      (.ok, { s with
        power_state := .idle
        last_activity_time := now
        stats := stats1 })

/-- `radio_send_packet_async` from radio_driver.c.  The returned
transaction id (the `*tx_id` output) is the second component. -/
def radio_send_packet_async (packet : radio_packet_t)
    (s : radio_state_t) : radio_error_t × Option Nat × radio_state_t :=
  if ¬ s.initialized then (.errInit, none, s)
  else if packet.payload_size > 246 then (.errPacketTooLarge, none, s)
  else if s.power_state = .off then (.errPowerFailure, none, s)
  else
    (.ok, some s.next_tx_id,
      { s with
        next_tx_id := u16mod (s.next_tx_id + 1)
        stats := { s.stats with
          packets_sent := u32mod (s.stats.packets_sent + 1) } })

/-- `radio_get_tx_status` from radio_driver.c.  The simulation ignores
`tx_id` entirely and always reports `RADIO_OK` as the transmission
status (the `*status` output, second component). -/
def radio_get_tx_status (tx_id : Nat) (s : radio_state_t) :
    radio_error_t × Option radio_error_t × radio_state_t :=
  if ¬ s.initialized then (.errInit, none, s)
  else (.ok, some .ok, s)

/-- The dequeue step that `radio_receive_packet` performs twice inline:
copy out `rx_buffer[rx_buffer_tail]`, advance the tail modulo 32,
decrement the count. -/
def dequeue_front (s : radio_state_t) : radio_packet_t × radio_state_t :=
  (s.rx_buffer s.rx_buffer_tail,
    { s with
      rx_buffer_tail := (s.rx_buffer_tail + 1) % 32
      rx_buffer_count := s.rx_buffer_count - 1 })

/-- `radio_receive_packet` from radio_driver.c.  `o1` and `o2` are the
oracles of the two inline `simulate_packet_reception()` calls (the second
only runs when `timeout_ms > 100`); the received packet (`*packet`
output) is the second component. -/
def radio_receive_packet (timeout_ms : Nat) (o1 o2 : rx_sim_oracle) (now : Nat)
    (s : radio_state_t) : radio_error_t × Option radio_packet_t × radio_state_t :=
  if ¬ s.initialized then (.errInit, none, s)
  else if s.power_state = .off then (.errPowerFailure, none, s)
  else
    let s1 := simulate_packet_reception o1 now s
    if s1.rx_buffer_count > 0 then
      let (p, s2) := dequeue_front s1
      (.ok, some p, s2)
    else if timeout_ms = 0 then (.errBufferEmpty, none, s1)
    else if timeout_ms > 100 then
      let s2 := simulate_packet_reception o2 now s1
      if s2.rx_buffer_count > 0 then
        let (p, s3) := dequeue_front s2
        (.ok, some p, s3)
      else (.errTimeout, none, s2)
    else (.errTimeout, none, s1)

/-- `radio_set_rx_callback` from radio_driver.c. -/
def radio_set_rx_callback (callback user_data : Option Nat)
    (s : radio_state_t) : radio_error_t × radio_state_t :=
  if ¬ s.initialized then (.errInit, s)
  else (.ok, { s with rx_callback := callback, rx_user_data := user_data })

/-- `radio_set_event_callback` from radio_driver.c. -/
def radio_set_event_callback (callback user_data : Option Nat)
    (s : radio_state_t) : radio_error_t × radio_state_t :=
  if ¬ s.initialized then (.errInit, s)
  else (.ok, { s with event_callback := callback, event_user_data := user_data })

/-- The `rand()` draws consumed by one `radio_join_network` call. -/
structure join_oracle where
  failDraw : Nat
  devs : Nat
  rssiDraw : Nat
  lq : Nat
  hops : Nat
deriving DecidableEq, Repr

/-- `radio_join_network` from radio_driver.c.  The `NULL` key check is not
modelled (keys are values here). -/
def radio_join_network (network_id : Nat) (o : join_oracle)
    (s : radio_state_t) : radio_error_t × radio_state_t :=
  if ¬ s.initialized then (.errInit, s)
  else if s.power_state = .off then (.errPowerFailure, s)
  else if o.failDraw % 100 < 10 then (.errTimeout, s)
  else
    (.ok, { s with
      network_info :=
        { network_id := network_id
          connected_devices := o.devs % 10 + 1
          signal_strength := simulate_rssi o.rssiDraw
          link_quality := o.lq % 30 + 70
          uptime_seconds := 0
          is_gateway := false
          hop_count := o.hops % 5 + 1 }
      connected_to_network := true })

/-- `radio_leave_network` from radio_driver.c. -/
def radio_leave_network (s : radio_state_t) : radio_error_t × radio_state_t :=
  if ¬ s.initialized then (.errInit, s)
  else
    (.ok, { s with
      connected_to_network := false
      network_info := { s.network_info with hop_count := 255, link_quality := 0 } })

/-- `radio_get_network_info` from radio_driver.c.  Refreshes the volatile
fields of the stored association info before returning the snapshot. -/
def radio_get_network_info (now rssiDraw : Nat)
    (s : radio_state_t) : radio_error_t × Option radio_network_info_t × radio_state_t :=
  if ¬ s.initialized then (.errInit, none, s)
  else if ¬ s.connected_to_network then (.errNotConnected, none, s)
  else
    let ni := { s.network_info with
      signal_strength := simulate_rssi rssiDraw
      uptime_seconds := (now - s.last_activity_time) / 1000 }
    (.ok, some ni, { s with network_info := ni })

/-- `radio_measure_rssi` from radio_driver.c. -/
def radio_measure_rssi (rssiDraw : Nat)
    (s : radio_state_t) : radio_error_t × Option Int × radio_state_t :=
  if ¬ s.initialized then (.errInit, none, s)
  else if s.power_state = .off then (.errPowerFailure, none, s)
  else
    let r := simulate_rssi rssiDraw
    (.ok, some r, { s with stats := { s.stats with last_rssi := r } })

/-- `radio_get_channel_utilization` from radio_driver.c. -/
def radio_get_channel_utilization (utilDraw : Nat)
    (s : radio_state_t) : radio_error_t × Option Nat × radio_state_t :=
  if ¬ s.initialized then (.errInit, none, s)
  else if s.power_state = .off then (.errPowerFailure, none, s)
  else
    let u := simulate_channel_utilization utilDraw
    (.ok, some u, { s with stats := { s.stats with channel_utilization := u } })

/-- `radio_get_statistics` from radio_driver.c.  Refreshes the
last-RSSI/utilization/power-consumption fields, then returns the snapshot. -/
def radio_get_statistics (now rssiDraw utilDraw : Nat)
    (s : radio_state_t) : radio_error_t × Option radio_stats_t × radio_state_t :=
  if ¬ s.initialized then (.errInit, none, s)
  else
    let elapsed := now - s.last_activity_time
    let st := { s.stats with
      last_rssi := simulate_rssi rssiDraw
      channel_utilization := simulate_channel_utilization utilDraw
      power_consumption_mw :=
        radio_estimate_power_consumption s.power_state elapsed / 1000 }
    (.ok, some st, { s with stats := st })

/-- `radio_reset_statistics` from radio_driver.c. -/
def radio_reset_statistics (rssiDraw : Nat)
    (s : radio_state_t) : radio_error_t × radio_state_t :=
  if ¬ s.initialized then (.errInit, s)
  else (.ok, { s with stats := { zeroStats with last_rssi := simulate_rssi rssiDraw } })

/-- `radio_deinit` from radio_driver.c.  Note precisely which fields it
touches: power state, connection flag, the two callback pointers and the
`initialized` flag — and nothing else (stats, config, receive buffer,
user-data pointers and `next_tx_id` are left as they were). -/
def radio_deinit (s : radio_state_t) : radio_error_t × radio_state_t :=
  if ¬ s.initialized then (.errInit, s)
  else
    (.ok, { s with
      power_state := .off
      connected_to_network := false
      rx_callback := none
      event_callback := none
      initialized := false })

/-! ## Reachability

One step of the driver: any API call (with arbitrary arguments and
arbitrary oracle draws) or one arrival injection.  Operations that never
modify the driver state (`radio_get_power_state`, `radio_get_tx_status`,
`radio_scan_networks` — which writes only into caller-owned arrays —,
`radio_self_test`, `radio_get_firmware_version`, `radio_get_error_string`)
are omitted: they return the state unchanged. -/
inductive RStep : radio_state_t → radio_state_t → Prop where
  | init (cfg : radio_config_t) (now r1 r2 : Nat) (s : radio_state_t) :
      RStep s (radio_init cfg now r1 r2 s).2
  | configure (cfg : radio_config_t) (s : radio_state_t) :
      RStep s (radio_configure cfg s).2
  | set_power (p : radio_power_state_t) (now : Nat) (s : radio_state_t) :
      RStep s (radio_set_power_state p now s).2
  | send (pkt : radio_packet_t) (lossDraw now : Nat) (s : radio_state_t) :
      RStep s (radio_send_packet pkt lossDraw now s).2
  | send_async (pkt : radio_packet_t) (s : radio_state_t) :
      RStep s (radio_send_packet_async pkt s).2.2
  | receive (timeout : Nat) (o1 o2 : rx_sim_oracle) (now : Nat) (s : radio_state_t) :
      RStep s (radio_receive_packet timeout o1 o2 now s).2.2
  | set_rx_cb (cb ud : Option Nat) (s : radio_state_t) :
      RStep s (radio_set_rx_callback cb ud s).2
  | set_event_cb (cb ud : Option Nat) (s : radio_state_t) :
      RStep s (radio_set_event_callback cb ud s).2
  | join (nid : Nat) (o : join_oracle) (s : radio_state_t) :
      RStep s (radio_join_network nid o s).2
  | leave (s : radio_state_t) :
      RStep s (radio_leave_network s).2
  | net_info (now rssiDraw : Nat) (s : radio_state_t) :
      RStep s (radio_get_network_info now rssiDraw s).2.2
  | rssi (rssiDraw : Nat) (s : radio_state_t) :
      RStep s (radio_measure_rssi rssiDraw s).2.2
  | util (utilDraw : Nat) (s : radio_state_t) :
      RStep s (radio_get_channel_utilization utilDraw s).2.2
  | get_stats (now rssiDraw utilDraw : Nat) (s : radio_state_t) :
      RStep s (radio_get_statistics now rssiDraw utilDraw s).2.2
  | reset_stats (rssiDraw : Nat) (s : radio_state_t) :
      RStep s (radio_reset_statistics rssiDraw s).2
  | deinit (s : radio_state_t) :
      RStep s (radio_deinit s).2
  | inject (o : rx_sim_oracle) (now : Nat) (s : radio_state_t) :
      RStep s (simulate_packet_reception o now s)

/-- States reachable from a successful `radio_init` by any sequence of API
calls and arrival injections. -/
def Reachable (s : radio_state_t) : Prop :=
  ∃ (cfg : radio_config_t) (now r1 r2 : Nat),
    validate_config cfg = true ∧
    Relation.ReflTransGen RStep (radio_init cfg now r1 r2 clearedState).2 s

/-- The structural invariant of the receive ring buffer: indices in range,
occupancy at most 32, and occupancy congruent to head minus tail mod 32
(expressed additively: `(tail + count) % 32 = head`). -/
def BufInv (s : radio_state_t) : Prop :=
  s.rx_buffer_head < 32 ∧ s.rx_buffer_tail < 32 ∧ s.rx_buffer_count ≤ 32 ∧
    (s.rx_buffer_tail + s.rx_buffer_count) % 32 = s.rx_buffer_head

/-! ## Concrete fixtures

A valid configuration (it is also exactly the scenario configuration of
the spec: channel 10, max_retries 3, tx_timeout 5000 ms, 50 kbps, GFSK),
concrete packets and oracle draws, and a few concrete driver states built
by running the embedded API. -/

/-- A valid configuration; also the spec's scenario configuration. -/
def cfgA : radio_config_t :=
  { frequency_hz := 868000000
    channel := 10
    tx_power := .medium
    data_rate := .rate50K
    modulation := .gfsk
    security := .none
    network_key := List.replicate 16 0
    device_address := List.replicate 8 1
    network_id := 42
    auto_ack := true
    auto_retry := true
    max_retries := 3
    tx_timeout_ms := 5000 }

/-- A 32-byte-payload packet. -/
def pkt32 : radio_packet_t :=
  { zeroPacket with payload_size := 32, payload := List.replicate 32 7 }

/-- An oversized packet: `payload_size = 247 > RADIO_MAX_PAYLOAD_SIZE`. -/
def pktBig : radio_packet_t :=
  { zeroPacket with payload_size := 247, payload := List.replicate 247 9 }

/-- An arrival-simulation oracle whose 5%-chance draw did not fire. -/
def oQuiet : rx_sim_oracle :=
  { fire := false
    src := List.replicate 8 2
    pid := 5
    psize := 10
    pdata := List.replicate 11 3 }

/-- An arrival-simulation oracle whose 5%-chance draw fired. -/
def oFire : rx_sim_oracle := { oQuiet with fire := true }

/-- The state right after a successful `radio_init` with `cfgA`. -/
def s_init : radio_state_t := (radio_init cfgA 0 0 0 clearedState).2

/-- An initialized state whose power state is Off. -/
def s_off : radio_state_t := (radio_set_power_state .off 0 s_init).2

/-- An initialized, powered state whose `packets_sent` counter sits at the
`uint32_t` maximum. -/
def s_max : radio_state_t :=
  { s_init with stats := { s_init.stats with packets_sent := 4294967295 } }

/-- `n` consecutive arrival injections with the firing oracle. -/
def injectIter (n : Nat) (s : radio_state_t) : radio_state_t :=
  match n with
  | 0 => s
  | n + 1 => simulate_packet_reception oFire 0 (injectIter n s)

/-- The state after filling the receive buffer with 32 arrivals. -/
def s_full : radio_state_t := injectIter 32 s_init

/-- The state after one asynchronous send from `s_init`. -/
def s_async : radio_state_t := (radio_send_packet_async pkt32 s_init).2.2

/-- The state after `radio_deinit` on `s_async`. -/
def s_deinit : radio_state_t := (radio_deinit s_async).2

lemma bufInv_of_fields_eq {s s' : radio_state_t} (h : BufInv s)
    (h1 : s'.rx_buffer_head = s.rx_buffer_head)
    (h2 : s'.rx_buffer_tail = s.rx_buffer_tail)
    (h3 : s'.rx_buffer_count = s.rx_buffer_count) : BufInv s' := by
  unfold BufInv at h ⊢
  rw [h1, h2, h3]
  exact h


lemma bufInv_simulate (o : rx_sim_oracle) (now : Nat) {s : radio_state_t}
    (h : BufInv s) : BufInv (simulate_packet_reception o now s) := by
  obtain ⟨h1, h2, h3, h4⟩ := h
  unfold simulate_packet_reception
  split
  · exact ⟨h1, h2, h3, h4⟩
  · split
    · split
      · unfold BufInv
        dsimp only
        omega
      · exact ⟨h1, h2, h3, h4⟩
    · exact ⟨h1, h2, h3, h4⟩

lemma bufInv_dequeue {s : radio_state_t} (h : BufInv s)
    (hc : 0 < s.rx_buffer_count) : BufInv (dequeue_front s).2 := by
  obtain ⟨h1, h2, h3, h4⟩ := h
  unfold dequeue_front BufInv
  dsimp only
  omega

lemma bufInv_init_ok {cfg : radio_config_t} (now r1 r2 : Nat) (s : radio_state_t)
    (hv : validate_config cfg = true) :
    BufInv (radio_init cfg now r1 r2 s).2 := by
  unfold radio_init
  rw [hv, if_neg (by simp)]
  unfold BufInv clearedState
  dsimp only
  omega

lemma bufInv_receive (timeout : Nat) (o1 o2 : rx_sim_oracle) (now : Nat)
    {s : radio_state_t} (h : BufInv s) :
    BufInv (radio_receive_packet timeout o1 o2 now s).2.2 := by
  unfold radio_receive_packet
  split
  · exact h
  · split
    · exact h
    · dsimp only
      have hs1 := bufInv_simulate o1 now h
      split
      · exact bufInv_dequeue hs1 (by omega)
      · split
        · exact hs1
        · split
          · have hs2 := bufInv_simulate o2 now hs1
            split
            · exact bufInv_dequeue hs2 (by omega)
            · exact hs2
          · exact hs1

/-- `BufInv` is preserved by every driver step. -/
lemma bufInv_step {s s' : radio_state_t} (h : BufInv s) (hs : RStep s s') :
    BufInv s' := by
  cases hs with
  | init cfg now r1 r2 s =>
      by_cases hv : validate_config cfg = true
      · exact bufInv_init_ok now r1 r2 s hv
      · unfold radio_init
        rw [if_pos]
        · exact h
        · simpa using hv
  | configure cfg s =>
      unfold radio_configure
      split
      · exact h
      · split
        · exact h
        · split
          · exact h
          · exact bufInv_of_fields_eq h rfl rfl rfl
  | set_power p now s =>
      unfold radio_set_power_state
      split
      · exact h
      · cases p
        case off => exact bufInv_of_fields_eq h rfl rfl rfl
        case rx =>
          dsimp only
          split
          · exact h
          · exact bufInv_of_fields_eq h rfl rfl rfl
        case tx =>
          dsimp only
          split
          · exact h
          · exact bufInv_of_fields_eq h rfl rfl rfl
        case sleep => exact bufInv_of_fields_eq h rfl rfl rfl
        case standby => exact bufInv_of_fields_eq h rfl rfl rfl
        case idle => exact bufInv_of_fields_eq h rfl rfl rfl
  | send pkt lossDraw now s =>
      unfold radio_send_packet
      split
      · exact h
      · split
        · exact h
        · split
          · exact h
          · dsimp only
            split
            · exact bufInv_of_fields_eq h rfl rfl rfl
            · exact bufInv_of_fields_eq h rfl rfl rfl
  | send_async pkt s =>
      unfold radio_send_packet_async
      split
      · exact h
      · split
        · exact h
        · split
          · exact h
          · exact bufInv_of_fields_eq h rfl rfl rfl
  | receive timeout o1 o2 now s => exact bufInv_receive timeout o1 o2 now h
  | set_rx_cb cb ud s =>
      unfold radio_set_rx_callback
      split
      · exact h
      · exact bufInv_of_fields_eq h rfl rfl rfl
  | set_event_cb cb ud s =>
      unfold radio_set_event_callback
      split
      · exact h
      · exact bufInv_of_fields_eq h rfl rfl rfl
  | join nid o s =>
      unfold radio_join_network
      split
      · exact h
      · split
        · exact h
        · split
          · exact h
          · exact bufInv_of_fields_eq h rfl rfl rfl
  | leave s =>
      unfold radio_leave_network
      split
      · exact h
      · exact bufInv_of_fields_eq h rfl rfl rfl
  | net_info now rssiDraw s =>
      unfold radio_get_network_info
      split
      · exact h
      · split
        · exact h
        · exact bufInv_of_fields_eq h rfl rfl rfl
  | rssi rssiDraw s =>
      unfold radio_measure_rssi
      split
      · exact h
      · split
        · exact h
        · exact bufInv_of_fields_eq h rfl rfl rfl
  | util utilDraw s =>
      unfold radio_get_channel_utilization
      split
      · exact h
      · split
        · exact h
        · exact bufInv_of_fields_eq h rfl rfl rfl
  | get_stats now rssiDraw utilDraw s =>
      unfold radio_get_statistics
      split
      · exact h
      · exact bufInv_of_fields_eq h rfl rfl rfl
  | reset_stats rssiDraw s =>
      unfold radio_reset_statistics
      split
      · exact h
      · exact bufInv_of_fields_eq h rfl rfl rfl
  | deinit s =>
      unfold radio_deinit
      split
      · exact h
      · exact bufInv_of_fields_eq h rfl rfl rfl
  | inject o now s => exact bufInv_simulate o now h

/-- Every reachable state satisfies the ring-buffer invariant. -/
lemma bufInv_reachable {s : radio_state_t} (h : Reachable s) : BufInv s := by
  obtain ⟨cfg, now, r1, r2, hv, hsteps⟩ := h
  induction hsteps with
  | refl => exact bufInv_init_ok now r1 r2 clearedState hv
  | tail hmid hlast ih => exact bufInv_step ih hlast

lemma simulate_quiet {o : rx_sim_oracle} (now : Nat) (s : radio_state_t)
    (hq : o.fire = false) : simulate_packet_reception o now s = s := by
  unfold simulate_packet_reception
  rw [hq]
  split <;> simp

lemma reachable_injectIter (n : Nat) (s : radio_state_t) :
    Relation.ReflTransGen RStep s (injectIter n s) := by
  induction n with
  | zero => exact .refl
  | succ n ih => exact .tail ih (RStep.inject oFire 0 (injectIter n s))

example : s_init.initialized = true ∧ s_init.power_state = .idle ∧
    s_init.rx_buffer_count = 0 := by decide
example : s_off.initialized = true ∧ s_off.power_state = .off := by decide
set_option maxRecDepth 4000 in
example : s_full.rx_buffer_count = 32 ∧ s_full.rx_buffer_head = 0 ∧
    s_full.rx_buffer_tail = 0 := by decide
example : s_deinit.stats.packets_sent = 1 ∧ s_deinit.next_tx_id = 2 := by decide
example : (radio_receive_packet 0 oFire oQuiet 0 s_init).1 = .ok := by decide
example : (radio_send_packet pkt32 50 0 s_max).2.stats.packets_sent = 0 := by decide

/-! ## Claims -/

/-- C1 counterexample: at an initialized, powered state whose
`packets_sent` counter holds the `uint32_t` maximum 4294967295, a
successful send of a 32-byte packet wraps the counter to 0, which is not
"exactly one greater than before the call". -/
theorem C1_counterexample :
    s_max.initialized = true ∧ s_max.power_state ≠ .off ∧
    pkt32.payload_size ≤ 246 ∧
    (radio_send_packet pkt32 50 0 s_max).1 = .ok ∧
    (radio_send_packet pkt32 50 0 s_max).2.power_state = .idle ∧
    (radio_send_packet pkt32 50 0 s_max).2.stats.packets_sent = 0 ∧
    (radio_send_packet pkt32 50 0 s_max).2.stats.packets_sent ≠
      s_max.stats.packets_sent + 1 := by decide

/-- C1 (amended): for every packet with payload_size at most 246 sent
while the driver is initialized and the power state is not Off, the call
returns success or NoAcknowledgment, the power state afterwards is Idle,
and the `packets_sent` counter is incremented by one in `uint32_t`
arithmetic — exactly one greater whenever it was below 2^32 − 1. -/
theorem C1_send_updates (pkt : radio_packet_t) (lossDraw now : Nat)
    (s : radio_state_t) (hinit : s.initialized = true)
    (hp : s.power_state ≠ .off) (hsize : pkt.payload_size ≤ 246) :
    ((radio_send_packet pkt lossDraw now s).1 = .ok ∨
      (radio_send_packet pkt lossDraw now s).1 = .errNoAck) ∧
    (radio_send_packet pkt lossDraw now s).2.power_state = .idle ∧
    (radio_send_packet pkt lossDraw now s).2.stats.packets_sent =
      u32mod (s.stats.packets_sent + 1) := by
  unfold radio_send_packet
  rw [hinit, if_neg (by simp), if_neg (by omega), if_neg hp]
  dsimp only
  split
  · exact ⟨Or.inr rfl, rfl, rfl⟩
  · exact ⟨Or.inl rfl, rfl, rfl⟩

theorem C1_witness :
    s_init.initialized = true ∧ s_init.power_state ≠ .off ∧
    pkt32.payload_size ≤ 246 ∧
    (((radio_send_packet pkt32 50 0 s_init).1 = .ok ∨
       (radio_send_packet pkt32 50 0 s_init).1 = .errNoAck) ∧
     (radio_send_packet pkt32 50 0 s_init).2.power_state = .idle ∧
     (radio_send_packet pkt32 50 0 s_init).2.stats.packets_sent =
       u32mod (s_init.stats.packets_sent + 1)) :=
  ⟨by decide, by decide, by decide,
    C1_send_updates pkt32 50 0 s_init (by decide) (by decide) (by decide)⟩

/-- C2: for every initialized state, entering Rx or Tx from Off fails
with a Configuration error and leaves the state unchanged; entering Off
always succeeds and clears the connected-to-network flag; every other
transition among the six states succeeds. -/
theorem C2_power_transitions (now : Nat) (s : radio_state_t)
    (hinit : s.initialized = true) :
    (s.power_state = .off →
      radio_set_power_state .rx now s = (.errConfig, s) ∧
      radio_set_power_state .tx now s = (.errConfig, s)) ∧
    ((radio_set_power_state .off now s).1 = .ok ∧
      (radio_set_power_state .off now s).2.power_state = .off ∧
      (radio_set_power_state .off now s).2.connected_to_network = false) ∧
    (∀ p : radio_power_state_t,
      p = .sleep ∨ p = .standby ∨ p = .idle ∨
        ((p = .rx ∨ p = .tx) ∧ s.power_state ≠ .off) →
      (radio_set_power_state p now s).1 = .ok ∧
      (radio_set_power_state p now s).2.power_state = p) := by
  refine ⟨fun hoff => ⟨?_, ?_⟩, ⟨?_, ?_, ?_⟩, fun p hp => ?_⟩
  · unfold radio_set_power_state
    rw [hinit, if_neg (by simp)]
    dsimp only
    rw [if_pos hoff]
  · unfold radio_set_power_state
    rw [hinit, if_neg (by simp)]
    dsimp only
    rw [if_pos hoff]
  · unfold radio_set_power_state
    rw [hinit, if_neg (by simp)]
  · unfold radio_set_power_state
    rw [hinit, if_neg (by simp)]
  · unfold radio_set_power_state
    rw [hinit, if_neg (by simp)]
  · rcases hp with rfl | rfl | rfl | ⟨rfl | rfl, hoff⟩ <;>
      unfold radio_set_power_state <;>
      rw [hinit, if_neg (by simp)] <;>
      dsimp only
    · exact ⟨rfl, rfl⟩
    · exact ⟨rfl, rfl⟩
    · exact ⟨rfl, rfl⟩
    · rw [if_neg hoff]; exact ⟨rfl, rfl⟩
    · rw [if_neg hoff]; exact ⟨rfl, rfl⟩

theorem C2_witness :
    s_off.initialized = true ∧
    radio_set_power_state .rx 0 s_off = (.errConfig, s_off) ∧
    (radio_set_power_state .off 0 s_off).1 = .ok ∧
    (radio_set_power_state .off 0 s_off).2.connected_to_network = false ∧
    (radio_set_power_state .idle 0 s_off).2.power_state = .idle :=
  ⟨by decide,
    ((C2_power_transitions 0 s_off (by decide)).1 (by decide)).1,
    (C2_power_transitions 0 s_off (by decide)).2.1.1,
    (C2_power_transitions 0 s_off (by decide)).2.1.2.2,
    ((C2_power_transitions 0 s_off (by decide)).2.2 .idle
      (Or.inr (Or.inr (Or.inl rfl)))).2⟩

set_option maxRecDepth 4000 in
/-- C3 counterexample: the reachable state obtained by injecting 32
arrivals after init has `rx_buffer_count = 32` but head = tail, so the
occupancy does not equal (head − tail) mod 32 (which is 0) when the
buffer is full. -/
theorem C3_counterexample :
    Reachable s_full ∧ s_full.rx_buffer_count = 32 ∧
    s_full.rx_buffer_head = 0 ∧ s_full.rx_buffer_tail = 0 ∧
    s_full.rx_buffer_count ≠
      (s_full.rx_buffer_head + 32 - s_full.rx_buffer_tail) % 32 :=
  ⟨⟨cfgA, 0, 0, 0, by decide, reachable_injectIter 32 s_init⟩,
    by decide, by decide, by decide, by decide⟩

/-- C3 (amended): in every state reachable from init by any sequence of
API calls and arrival injections, `rx_buffer_count` never exceeds 32 and
is congruent to head − tail modulo 32 (equality holds below capacity;
with 32 packets buffered head equals tail), and an arrival that finds
the buffer holding 32 packets is dropped without increasing
`rx_buffer_count` or the `packets_received` counter. -/
theorem C3_buffer_invariant (s : radio_state_t) (h : Reachable s) :
    s.rx_buffer_count ≤ 32 ∧
    s.rx_buffer_count % 32 =
      (s.rx_buffer_head + 32 - s.rx_buffer_tail) % 32 ∧
    ∀ (o : rx_sim_oracle) (now : Nat), s.rx_buffer_count = 32 →
      (simulate_packet_reception o now s).rx_buffer_count =
        s.rx_buffer_count ∧
      (simulate_packet_reception o now s).stats.packets_received =
        s.stats.packets_received := by
  obtain ⟨h1, h2, h3, h4⟩ := bufInv_reachable h
  refine ⟨h3, by omega, fun o now hfull => ?_⟩
  unfold simulate_packet_reception
  split
  · exact ⟨rfl, rfl⟩
  · split
    · split
      · exact absurd hfull (by omega)
      · exact ⟨rfl, rfl⟩
    · exact ⟨rfl, rfl⟩

set_option maxRecDepth 4000 in
theorem C3_witness :
    Reachable s_full ∧
    (s_full.rx_buffer_count ≤ 32 ∧
     s_full.rx_buffer_count % 32 =
       (s_full.rx_buffer_head + 32 - s_full.rx_buffer_tail) % 32 ∧
     ∀ (o : rx_sim_oracle) (now : Nat), s_full.rx_buffer_count = 32 →
       (simulate_packet_reception o now s_full).rx_buffer_count =
         s_full.rx_buffer_count ∧
       (simulate_packet_reception o now s_full).stats.packets_received =
         s_full.stats.packets_received) :=
  ⟨⟨cfgA, 0, 0, 0, by decide, reachable_injectIter 32 s_init⟩,
    C3_buffer_invariant s_full
      ⟨cfgA, 0, 0, 0, by decide, reachable_injectIter 32 s_init⟩⟩

/-- C4: for every initialized state and every packet with payload_size
greater than 246, `radio_send_packet` fails with the OversizedPacket
error and the entire radio state is unchanged. -/
theorem C4_oversized_no_mutation (pkt : radio_packet_t) (lossDraw now : Nat)
    (s : radio_state_t) (hinit : s.initialized = true)
    (hsize : pkt.payload_size > 246) :
    radio_send_packet pkt lossDraw now s = (.errPacketTooLarge, s) := by
  unfold radio_send_packet
  rw [hinit, if_neg (by simp), if_pos hsize]

theorem C4_witness :
    s_init.initialized = true ∧ pktBig.payload_size > 246 ∧
    radio_send_packet pktBig 0 0 s_init = (.errPacketTooLarge, s_init) :=
  ⟨by decide, by decide,
    C4_oversized_no_mutation pktBig 0 0 s_init (by decide) (by decide)⟩

/-- C5: the simulated `radio_get_tx_status` ignores the transaction id
entirely and reports success (`RADIO_OK` call result with `RADIO_OK`
status) for every id — including ids never issued by
`radio_send_packet_async` — instead of failing with NotFound (a code the
C error enumeration does not even define). -/
theorem C5_tx_status_always_ok (tid : Nat) (s : radio_state_t)
    (hinit : s.initialized = true) :
    radio_get_tx_status tid s = (.ok, some .ok, s) := by
  unfold radio_get_tx_status
  rw [hinit, if_neg (by simp)]

theorem C5_witness :
    s_init.initialized = true ∧ s_init.next_tx_id = 1 ∧
    radio_get_tx_status 0 s_init = (.ok, some .ok, s_init) :=
  ⟨by decide, by decide, C5_tx_status_always_ok 0 s_init (by decide)⟩

/-- C6 counterexample: after init, one asynchronous send and
`radio_deinit`, the statistics and the next transaction id still carry
their pre-deinit values (1 and 2), not the cleared defaults (0 and 0);
the whole state is therefore not reset to the cleared default. -/
theorem C6_counterexample :
    (radio_deinit s_async).1 = .ok ∧
    s_deinit.stats.packets_sent = 1 ∧
    s_deinit.next_tx_id = 2 ∧
    clearedState.stats.packets_sent = 0 ∧
    clearedState.next_tx_id = 0 ∧
    s_deinit.stats.packets_sent ≠ clearedState.stats.packets_sent ∧
    s_deinit.next_tx_id ≠ clearedState.next_tx_id := by decide

/-- C6 (amended): for every initialized state, `radio_deinit` succeeds
and clears exactly the power state (to Off), the connection flag, the
two registered callback pointers and the initialized flag; the
statistics counters, the stored configuration, the receive-buffer
occupancy and the next transaction id are left unchanged, not reset. -/
theorem C6_deinit_partial_reset (s : radio_state_t)
    (hinit : s.initialized = true) :
    (radio_deinit s).1 = .ok ∧
    (radio_deinit s).2.initialized = false ∧
    (radio_deinit s).2.power_state = .off ∧
    (radio_deinit s).2.connected_to_network = false ∧
    (radio_deinit s).2.rx_callback = none ∧
    (radio_deinit s).2.event_callback = none ∧
    (radio_deinit s).2.stats = s.stats ∧
    (radio_deinit s).2.config = s.config ∧
    (radio_deinit s).2.rx_buffer_count = s.rx_buffer_count ∧
    (radio_deinit s).2.next_tx_id = s.next_tx_id := by
  unfold radio_deinit
  rw [hinit, if_neg (by simp)]
  exact ⟨rfl, rfl, rfl, rfl, rfl, rfl, rfl, rfl, rfl, rfl⟩

theorem C6_witness :
    s_async.initialized = true ∧
    ((radio_deinit s_async).1 = .ok ∧
     (radio_deinit s_async).2.initialized = false ∧
     (radio_deinit s_async).2.power_state = .off ∧
     (radio_deinit s_async).2.connected_to_network = false ∧
     (radio_deinit s_async).2.rx_callback = none ∧
     (radio_deinit s_async).2.event_callback = none ∧
     (radio_deinit s_async).2.stats = s_async.stats ∧
     (radio_deinit s_async).2.config = s_async.config ∧
     (radio_deinit s_async).2.rx_buffer_count = s_async.rx_buffer_count ∧
     (radio_deinit s_async).2.next_tx_id = s_async.next_tx_id) :=
  ⟨by decide, C6_deinit_partial_reset s_async (by decide)⟩

/-- C7 counterexample: `radio_calculate_airtime(32, 50 kbps, GFSK)`
returns 6900 µs — the integer arithmetic floors (32+16)·8·9/10 = 345.6
to 345 bits — not the 6912 µs of the real-valued formula
((32+16)·8·0.9)/50000 s. -/
theorem C7_counterexample :
    radio_calculate_airtime 32 .rate50K .gfsk = 6900 ∧
    radio_calculate_airtime 32 .rate50K .gfsk ≠ 6912 := by decide

/-- C7 (amended): `radio_calculate_airtime(32, 50 kbps, GFSK)` returns
6900 µs, the value of ((32+16)·8·9/10 floored = 345 bits)·10^6/50000
under the implementation's integer arithmetic (the real-valued formula
gives 6912 µs); and in the spec scenario (config with channel 10,
max_retries 3, tx_timeout 5000 ms, 50 kbps, GFSK) init succeeds and
after one 32-byte send `packets_sent` equals 1. -/
theorem C7_scenario (lossDraw now : Nat) :
    radio_calculate_airtime 32 .rate50K .gfsk = 6900 ∧
    (radio_init cfgA 0 0 0 clearedState).1 = .ok ∧
    ((radio_send_packet pkt32 lossDraw now s_init).1 = .ok ∨
      (radio_send_packet pkt32 lossDraw now s_init).1 = .errNoAck) ∧
    (radio_send_packet pkt32 lossDraw now s_init).2.stats.packets_sent = 1 := by
  refine ⟨by decide, by decide, ?_, ?_⟩
  · unfold radio_send_packet
    rw [if_neg (by decide), if_neg (by decide), if_neg (by decide)]
    dsimp only
    split
    · exact Or.inr rfl
    · exact Or.inl rfl
  · unfold radio_send_packet
    rw [if_neg (by decide), if_neg (by decide), if_neg (by decide)]
    dsimp only
    split
    · exact rfl
    · exact rfl

/-- C8 counterexample: in an initialized state with power Off, sending a
packet whose payload_size is 247 fails with OversizedPacket — the size
check precedes the power check — not with PowerFailure, for both the
synchronous and the asynchronous send. -/
theorem C8_counterexample :
    s_off.initialized = true ∧ s_off.power_state = .off ∧
    (radio_send_packet pktBig 0 0 s_off).1 = .errPacketTooLarge ∧
    (radio_send_packet pktBig 0 0 s_off).1 ≠ .errPowerFailure ∧
    (radio_send_packet_async pktBig s_off).1 = .errPacketTooLarge ∧
    (radio_send_packet_async pktBig s_off).1 ≠ .errPowerFailure := by decide

/-- C8 (amended): for every initialized state whose power state is Off
and every packet with payload_size at most 246, both
`radio_send_packet` and `radio_send_packet_async` fail with the
PowerFailure error (oversized packets fail with OversizedPacket
instead, since the size check comes first). -/
theorem C8_power_off_fails (pkt : radio_packet_t) (lossDraw now : Nat)
    (s : radio_state_t) (hinit : s.initialized = true)
    (hoff : s.power_state = .off) (hsize : pkt.payload_size ≤ 246) :
    (radio_send_packet pkt lossDraw now s).1 = .errPowerFailure ∧
    (radio_send_packet_async pkt s).1 = .errPowerFailure := by
  constructor
  · unfold radio_send_packet
    rw [hinit, if_neg (by simp), if_neg (by omega), if_pos hoff]
  · unfold radio_send_packet_async
    rw [hinit, if_neg (by simp), if_neg (by omega), if_pos hoff]

theorem C8_witness :
    s_off.initialized = true ∧ s_off.power_state = .off ∧
    pkt32.payload_size ≤ 246 ∧
    ((radio_send_packet pkt32 0 0 s_off).1 = .errPowerFailure ∧
     (radio_send_packet_async pkt32 s_off).1 = .errPowerFailure) :=
  ⟨by decide, by decide, by decide,
    C8_power_off_fails pkt32 0 0 s_off (by decide) (by decide) (by decide)⟩

/-- C9 counterexample: `radio_receive_packet` runs the random arrival
simulation inside the call, so a call with timeout 0 on an empty buffer
in an initialized, powered (Idle) state returns RADIO_OK with the
freshly injected packet when the 5%-chance draw fires, not
BufferEmpty. -/
theorem C9_counterexample :
    s_init.initialized = true ∧ s_init.power_state ≠ .off ∧
    s_init.rx_buffer_count = 0 ∧
    (radio_receive_packet 0 oFire oQuiet 0 s_init).1 = .ok ∧
    (radio_receive_packet 0 oFire oQuiet 0 s_init).1 ≠ .errBufferEmpty := by decide

/-- C9 (amended): for every initialized, powered-on state whose receive
buffer is empty, `radio_receive_packet` with timeout 0 fails immediately
with BufferEmpty, dequeuing nothing and leaving the state unchanged —
provided the in-call arrival simulation does not inject a packet during
the call (the simulation can inject only in the Idle and Rx states). -/
theorem C9_empty_nonblocking (o1 o2 : rx_sim_oracle) (now : Nat)
    (s : radio_state_t) (hinit : s.initialized = true)
    (hp : s.power_state ≠ .off) (hempty : s.rx_buffer_count = 0)
    (hquiet : o1.fire = false) :
    radio_receive_packet 0 o1 o2 now s = (.errBufferEmpty, none, s) := by
  unfold radio_receive_packet
  rw [hinit, if_neg (by simp), if_neg hp]
  dsimp only
  rw [simulate_quiet now s hquiet, if_neg (by omega), if_pos rfl]

theorem C9_witness :
    s_init.initialized = true ∧ s_init.power_state ≠ .off ∧
    s_init.rx_buffer_count = 0 ∧ oQuiet.fire = false ∧
    radio_receive_packet 0 oQuiet oQuiet 0 s_init =
      (.errBufferEmpty, none, s_init) :=
  ⟨by decide, by decide, by decide, by decide,
    C9_empty_nonblocking oQuiet oQuiet 0 s_init
      (by decide) (by decide) (by decide) (by decide)⟩

lemma airtime_no_wrap (x : Nat) (hx : x ≤ 246) (r : radio_data_rate_t)
    (m : radio_modulation_t) :
    radio_calculate_airtime x r m =
      (match m with
        | .fsk => (x + 16) * 8
        | .gfsk => (x + 16) * 8 * 9 / 10
        | .lora => (x + 16) * 8 * 3 / 2
        | .ook => (x + 16) * 8 * 2) * 1000000 /
      (match r with
        | .rate1K => 1000
        | .rate10K => 10000
        | .rate50K => 50000
        | .rate100K => 100000
        | .rate250K => 250000) := by
  have h1 : (x + 16) * 8 < 4294967296 := by omega
  have h2 : (x + 16) * 8 * 9 < 4294967296 := by omega
  have h3 : (x + 16) * 8 * 3 < 4294967296 := by omega
  have h4 : (x + 16) * 8 * 2 < 4294967296 := by omega
  have h5 : (x + 16) * 8 * 1000000 < 4294967296 := by omega
  have h6 : (x + 16) * 8 * 9 / 10 * 1000000 < 4294967296 := by omega
  have h7 : (x + 16) * 8 * 3 / 2 * 1000000 < 4294967296 := by omega
  have h8 : (x + 16) * 8 * 2 * 1000000 < 4294967296 := by omega
  unfold radio_calculate_airtime u32mod
  cases r <;> cases m <;>
    dsimp only <;>
    rw [Nat.mod_eq_of_lt h1] <;>
    first
      | rw [Nat.mod_eq_of_lt h5]
      | rw [Nat.mod_eq_of_lt h2, Nat.mod_eq_of_lt h6]
      | rw [Nat.mod_eq_of_lt h3, Nat.mod_eq_of_lt h7]
      | rw [Nat.mod_eq_of_lt h4, Nat.mod_eq_of_lt h8]

/-- C10: for every fixed data rate and modulation scheme,
`radio_calculate_airtime` is non-decreasing in the payload size over
payloads up to the 246-byte limit. -/
theorem C10_airtime_monotone (a b : Nat) (r : radio_data_rate_t)
    (m : radio_modulation_t) (hab : a ≤ b) (hb : b ≤ 246) :
    radio_calculate_airtime a r m ≤ radio_calculate_airtime b r m := by
  rw [airtime_no_wrap a (le_trans hab hb) r m, airtime_no_wrap b hb r m]
  cases r <;> cases m <;> dsimp only <;> omega

theorem C10_witness :
    (10 : Nat) ≤ 20 ∧ (20 : Nat) ≤ 246 ∧
    radio_calculate_airtime 10 .rate10K .lora ≤
      radio_calculate_airtime 20 .rate10K .lora :=
  ⟨by decide, by decide,
    C10_airtime_monotone 10 20 .rate10K .lora (by decide) (by decide)⟩
